import Mathlib

/-!
Verification of the intent-to-action dispatch pipeline of `src/main.py`
(a conversational movie-query front-end).

The Python values flowing through the pipeline (decoded JSON bodies,
intent dictionaries, parameter mappings) are embedded as the inductive
type `Json`, with `Json.null` standing for Python `None`.  Each handler
function of `src/main.py` is translated into a Lean function returning
`Except String String`: `Except.ok s` models the Python function
returning the string `s`, and `Except.error e` models an uncaught Python
exception (`KeyError`, `AttributeError`, `TypeError`) escaping the
function — the handlers catch only `requests.RequestException`, which is
modelled separately by `HttpResult.err`.  Workflows additionally return
the list of catalog HTTP calls they issued, so that claims about "zero
catalog calls" are statable.
-/

/-- Embedding of a decoded Python/JSON value.  `null` is Python `None`;
objects are association lists (JSON objects decoded by `json.loads` have
string keys, duplicates collapsed). -/
inductive Json where
  | null : Json
  | bool (b : Bool) : Json
  | num (n : Int) : Json
  | str (s : String) : Json
  | arr (xs : List Json) : Json
  | obj (fields : List (String × Json)) : Json

mutual

/-- Python `repr()` on a decoded JSON value (numbers are modelled as
integers; only their ordering and identity matter to the pipeline). -/
def Json.pyRepr : Json → String
  | .null => "None"
  | .bool true => "True"
  | .bool false => "False"
  | .num n => toString n
  | .str s => "\x27" ++ s ++ "\x27"
  | .arr xs => "[" ++ String.intercalate ", " (Json.pyReprList xs) ++ "]"
  | .obj fs => "\x7b" ++ String.intercalate ", " (Json.pyReprFields fs) ++ "\x7d"

/-- Helper for `Json.pyRepr`: the repr of each list element. -/
def Json.pyReprList : List Json → List String
  | [] => []
  | x :: xs => Json.pyRepr x :: Json.pyReprList xs

/-- Helper for `Json.pyRepr`: the repr of each dict entry. -/
def Json.pyReprFields : List (String × Json) → List String
  | [] => []
  | (k, v) :: fs => ("\x27" ++ k ++ "\x27: " ++ Json.pyRepr v) :: Json.pyReprFields fs

end

namespace Json

/-- Python `str()` as used by f-string interpolation: strings verbatim,
everything else via `repr`. -/
def pyStr : Json → String
  | .str s => s
  | v => v.pyRepr

/-- Python truthiness (`if not results:`). -/
def pyTruthy : Json → Bool
  | .null => false
  | .bool b => b
  | .num n => n != 0
  | .str s => s != ""
  | .arr xs => !xs.isEmpty
  | .obj fs => !fs.isEmpty

/-- Python `value.get(key, default)`: defined on dicts, raises
`AttributeError` on every other value. -/
def dictGet : Json → String → Json → Except String Json
  | .obj fs, k, d => .ok ((fs.lookup k).getD d)
  | _, _, _ => .error "AttributeError"

/-- Python subscript `value[key]` with a string key: dict lookup raising
`KeyError` when absent; `TypeError` on every non-dict value. -/
def getKey : Json → String → Except String Json
  | .obj fs, k =>
    match fs.lookup k with
    | some v => .ok v
    | none => .error ("KeyError: \x27" ++ k ++ "\x27")
  | _, _ => .error "TypeError"

/-- Python subscript `value[i]` with a numeric index, as used by
`results[0]`: list indexing (raising `IndexError` out of range), string
indexing yielding a one-character string, `KeyError` on dicts (JSON
object keys are strings, so an integer key is absent), `TypeError`
otherwise. -/
def getIndex : Json → Nat → Except String Json
  | .arr xs, i =>
    match xs.get? i with
    | some v => .ok v
    | none => .error "IndexError"
  | .str s, i =>
    match s.toList.get? i with
    | some c => .ok (.str (String.mk [c]))
    | none => .error "IndexError"
  | .obj _, _ => .error "KeyError: 0"
  | _, _ => .error "TypeError"

/-- Python `value[:5]` followed by iteration, as in the list
comprehension over `movies[:5]`: slices lists and strings, `TypeError`
on anything else. -/
def slice5 : Json → Except String (List Json)
  | .arr xs => .ok (xs.take 5)
  | .str s => .ok ((s.toList.take 5).map fun c => .str (String.mk [c]))
  | _ => .error "TypeError"

/-- Python iteration as performed by `sorted(credits, ...)`: lists give
their elements, strings their characters, dicts their keys, and
non-iterables raise `TypeError`. -/
def iterElems : Json → Except String (List Json)
  | .arr xs => .ok xs
  | .str s => .ok (s.toList.map fun c => .str (String.mk [c]))
  | .obj fs => .ok (fs.map fun p => .str p.1)
  | _ => .error "TypeError"

/-- Substring occurrence test on character lists, for Python's
`needle in haystack` on strings. -/
def substrOccurs (needle : List Char) : List Char → Bool
  | [] => needle.isEmpty
  | c :: rest => needle.isPrefixOf (c :: rest) || substrOccurs needle rest

/-- Python `key in value` for a string key: dict key containment,
substring test on strings, `==`-membership on lists (a string key only
ever equals a string element), `TypeError` otherwise. -/
def pyContains : Json → String → Except String Bool
  | .obj fs, k => .ok (fs.lookup k).isSome
  | .str s, k => .ok (substrOccurs k.toList s.toList)
  | .arr xs, k =>
    .ok (xs.any fun x => match x with | .str s => s == k | _ => false)
  | _, _ => .error "TypeError"

end Json

/-- Outcome of the classifier call inside `get_intent_from_llm`,
abstracting the external pieces: `callFailed` is any exception from the
`client.messages.create` call (or from reading the reply), and `reply d`
is a successful call whose stripped text decodes under `json.loads` to
`d = some v`, or fails to decode (`json.JSONDecodeError`) when
`d = none`.  The code-fence stripping only affects which raw texts
decode, so it is absorbed into this abstraction. -/
inductive ClassifierResult where
  | callFailed : ClassifierResult
  | reply (decoded : Option Json) : ClassifierResult

/-- The fallback intent dictionary built by both `except` clauses of
`get_intent_from_llm`. -/
def fallbackIntent : Json :=
  .obj [("function_name", .str "unsupported_request"), ("parameters", .obj [])]

/-- Embedding of `get_intent_from_llm` (src/main.py lines 140-165):
returns the decoded value verbatim on success, and the fallback
dictionary on `json.JSONDecodeError` or on any classifier-call
exception. -/
def get_intent_from_llm : ClassifierResult → Json
  | .callFailed => fallbackIntent
  | .reply none => fallbackIntent
  | .reply (some v) => v

/-- Embedding of the field extraction in `main` (src/main.py lines
181-182): `intent.get("function_name")` and
`intent.get("parameters", {})`.  `Except.error` models the
`AttributeError` raised when `intent` is not a dict. -/
def extractIntent (intent : Json) : Except String (Json × Json) := do
  let fn ← intent.dictGet "function_name" Json.null
  let ps ← intent.dictGet "parameters" (Json.obj [])
  pure (fn, ps)

/-- Outcome of one catalog HTTP GET, as observed by a handler:
`err e` is a `requests.RequestException` (connection failure or a
non-2xx status surfaced by `raise_for_status`) with message `e`, and
`ok body` is a 2xx response whose JSON body decodes to `body`. -/
inductive HttpResult where
  | err (e : String) : HttpResult
  | ok (body : Json) : HttpResult

/-- The catalog service as an oracle: one `HttpResult` per endpoint of
src/main.py.  Query strings and identifiers travel as `Json` because the
Python code passes whatever value it extracted (from parameters or from
`results[0]["id"]`) without conversion. -/
structure Catalog where
  popular : HttpResult
  searchMovie : Json → HttpResult
  movieDetails : Json → HttpResult
  searchPerson : Json → HttpResult
  personCredits : Json → HttpResult

/-- One issued catalog HTTP call, recorded in order, so that claims
about the number of calls a workflow makes are statable. -/
inductive CatalogCall where
  | popularCall : CatalogCall
  | searchMovieCall (q : Json) : CatalogCall
  | movieDetailsCall (id : Json) : CatalogCall
  | searchPersonCall (q : Json) : CatalogCall
  | personCreditsCall (id : Json) : CatalogCall

/-- One line of the popular-movies list comprehension (src/main.py line
52): `f"- {movie['title']} (Rating: {movie['vote_average']})"`, with the
`KeyError`/`TypeError` of the subscripts propagating. -/
def popularLine (m : Json) : Except String String := do
  let t ← m.getKey "title"
  let v ← m.getKey "vote_average"
  pure ("- " ++ t.pyStr ++ " (Rating: " ++ v.pyStr ++ ")")

/-- A Python list comprehension `[f(x) for x in xs]` in the exception
monad: elements left to right, the first raised exception
propagating. -/
def comprehend (f : Json → Except String String) : List Json → Except String (List String)
  | [] => .ok []
  | m :: ms => do
    let l ← f m
    let ls ← comprehend f ms
    pure (l :: ls)

/-- The popular-movies list comprehension over the (already sliced)
entries. -/
def popularLines : List Json → Except String (List String) :=
  comprehend popularLine

/-- Embedding of `handle_get_popular_movies` (src/main.py lines 39-56).
The `try` block catches only `requests.RequestException`, so `KeyError`
from a record missing a field, `AttributeError` from a non-dict body and
`TypeError` from a non-sliceable `results` value all escape as
`Except.error`. -/
def handle_get_popular_movies (cat : Catalog) :
    Except String String × List CatalogCall :=
  match cat.popular with
  | .err e => (.ok ("Error during API call: " ++ e), [.popularCall])
  | .ok body =>
    match body.dictGet "results" (Json.arr []) with
    | .error e => (.error e, [.popularCall])
    | .ok movies =>
      match movies.slice5 with
      | .error e => (.error e, [.popularCall])
      | .ok sliced =>
        match popularLines sliced with
        | .error e => (.error e, [.popularCall])
        | .ok lines =>
          (.ok ("The top 5 popular movies now:\n" ++ String.intercalate "\n" lines),
           [.popularCall])

/-- The details rendering of src/main.py lines 89-94, with the
`KeyError` of any missing field propagating. -/
def renderDetails (details : Json) : Except String String := do
  let t ← details.getKey "title"
  let o ← details.getKey "overview"
  let v ← details.getKey "vote_average"
  let r ← details.getKey "release_date"
  pure ("Details of \x27" ++ t.pyStr ++ "\x27 movie:\nOverview: " ++ o.pyStr ++
        "\nVote average: " ++ v.pyStr ++ "/10\nRelease date: " ++ r.pyStr)

/-- Embedding of `handle_get_movie_details` (src/main.py lines 60-97):
search by name, emptiness check by Python truthiness, then fetch details
by `results[0]["id"]`.  Only `requests.RequestException` is caught. -/
def handle_get_movie_details (cat : Catalog) (movie_name : Json) :
    Except String String × List CatalogCall :=
  match cat.searchMovie movie_name with
  | .err e => (.ok ("Error during API call: " ++ e), [.searchMovieCall movie_name])
  | .ok body =>
    match body.dictGet "results" (Json.arr []) with
    | .error e => (.error e, [.searchMovieCall movie_name])
    | .ok results =>
      if results.pyTruthy = false then
        (.ok ("No movie titled \x27" ++ movie_name.pyStr ++ "\x27."),
         [.searchMovieCall movie_name])
      else
        match results.getIndex 0 with
        | .error e => (.error e, [.searchMovieCall movie_name])
        | .ok first =>
          match first.getKey "id" with
          | .error e => (.error e, [.searchMovieCall movie_name])
          | .ok movie_id =>
            match cat.movieDetails movie_id with
            | .err e =>
              (.ok ("Error during API call: " ++ e),
               [.searchMovieCall movie_name, .movieDetailsCall movie_id])
            | .ok details =>
              (renderDetails details,
               [.searchMovieCall movie_name, .movieDetailsCall movie_id])

/-- The sort key of src/main.py line 129, `lambda x: x.get("popularity", 0)`:
`AttributeError` on a non-dict credit record, the numeric value of a
present `popularity` field, `0` when the field is absent, and
`TypeError` standing for a non-numeric value that cannot be compared
against the numeric default during the sort. -/
def creditKey (x : Json) : Except String Int :=
  match x with
  | .obj fs =>
    match (fs.lookup "popularity").getD (Json.num 0) with
    | .num n => .ok n
    | _ => .error "TypeError"
  | _ => .error "AttributeError"

/-- Key extraction for every credit record, left to right, as `sorted`
does before comparing. -/
def creditKeys : List Json → Except String (List (Json × Int))
  | [] => .ok []
  | x :: xs => do
    let k ← creditKey x
    let ps ← creditKeys xs
    pure ((x, k) :: ps)

/-- Embedding of `sorted(credits, key=..., reverse=True)` on the
key-annotated records.  Python's sort is stable, and `reverse=True`
keeps equal-key records in their original relative order; the output is
therefore the unique permutation that is descending in key and
order-preserving on every equal-key class, which is what
`insertionSort` with `r a b := b.key ≤ a.key` computes (an earlier
record is inserted before a later record exactly when its key is at
least as large, so ties keep the earlier record first). -/
def sortCredits (pairs : List (Json × Int)) : List (Json × Int) :=
  pairs.insertionSort fun a b => b.2 ≤ a.2

/-- One line of the credits list comprehension (src/main.py line 130):
`f"- {movie['title']} (Character: {movie['character']})"`. -/
def creditLine (m : Json) : Except String String := do
  let t ← m.getKey "title"
  let c ← m.getKey "character"
  pure ("- " ++ t.pyStr ++ " (Character: " ++ c.pyStr ++ ")")

/-- The credits list comprehension over the top records. -/
def creditLines : List Json → Except String (List String) :=
  comprehend creditLine

/-- Embedding of `handle_get_actor_credits` (src/main.py lines 100-135):
search person by name, fetch that person's movie credits, stably sort by
descending popularity, render the first five.  Only
`requests.RequestException` is caught. -/
def handle_get_actor_credits (cat : Catalog) (actor_name : Json) :
    Except String String × List CatalogCall :=
  match cat.searchPerson actor_name with
  | .err e => (.ok ("Error during API call: " ++ e), [.searchPersonCall actor_name])
  | .ok body =>
    match body.dictGet "results" (Json.arr []) with
    | .error e => (.error e, [.searchPersonCall actor_name])
    | .ok results =>
      if results.pyTruthy = false then
        (.ok ("No actor named \x27" ++ actor_name.pyStr ++ "\x27."),
         [.searchPersonCall actor_name])
      else
        match results.getIndex 0 with
        | .error e => (.error e, [.searchPersonCall actor_name])
        | .ok first =>
          match first.getKey "id" with
          | .error e => (.error e, [.searchPersonCall actor_name])
          | .ok person_id =>
            match cat.personCredits person_id with
            | .err e =>
              (.ok ("Error during API call: " ++ e),
               [.searchPersonCall actor_name, .personCreditsCall person_id])
            | .ok credBody =>
              let calls := [CatalogCall.searchPersonCall actor_name,
                            CatalogCall.personCreditsCall person_id]
              match credBody.dictGet "cast" (Json.arr []) with
              | .error e => (.error e, calls)
              | .ok credits =>
                match credits.iterElems with
                | .error e => (.error e, calls)
                | .ok elems =>
                  match creditKeys elems with
                  | .error e => (.error e, calls)
                  | .ok pairs =>
                    match creditLines (((sortCredits pairs).take 5).map Prod.fst) with
                    | .error e => (.error e, calls)
                    | .ok lines =>
                      (.ok ("\x27" ++ actor_name.pyStr ++ "\x27 (ID: " ++
                            person_id.pyStr ++ ")\x27s top movies:\n" ++
                            String.intercalate "\n" lines), calls)

/-- Embedding of the dispatch conditional chain of `main` (src/main.py
lines 187-206).  Python `==` between a non-string `function_name` and a
string literal is `False`, so non-string actions fall to the final
`else`; the required-parameter checks are Python `in` on the
`parameters` value. -/
def dispatch (cat : Catalog) (function_name parameters : Json) :
    Except String String × List CatalogCall :=
  match function_name with
  | .str s =>
    if s = "get_popular_movies" then
      handle_get_popular_movies cat
    else if s = "get_movie_details" then
      match parameters.pyContains "movie_name" with
      | .error e => (.error e, [])
      | .ok true =>
        match parameters.getKey "movie_name" with
        | .error e => (.error e, [])
        | .ok v => handle_get_movie_details cat v
      | .ok false => (.ok "LLM could not extract the movie name.", [])
    else if s = "get_actor_credits" then
      match parameters.pyContains "actor_name" with
      | .error e => (.error e, [])
      | .ok true =>
        match parameters.getKey "actor_name" with
        | .error e => (.error e, [])
        | .ok v => handle_get_actor_credits cat v
      | .ok false => (.ok "LLM could not extract the actor name.", [])
    else if s = "unsupported_request" then
      (.ok "This request is not supported. Please ask about popular movies, movie details, or actor credits.", [])
    else
      (.ok ("No function called \x27" ++ Json.pyStr (.str s) ++ "\x27."), [])
  | other =>
    (.ok ("No function called \x27" ++ other.pyStr ++ "\x27."), [])

/-- One full turn of the main loop after reading user input: intent
classification, field extraction, dispatch.  `Except.error` is an
uncaught exception crashing the loop. -/
def processTurn (cat : Catalog) (r : ClassifierResult) :
    Except String String × List CatalogCall :=
  match extractIntent (get_intent_from_llm r) with
  | .error e => (.error e, [])
  | .ok (fn, ps) => dispatch cat fn ps

/-- A stub catalog whose every call fails with a fixed transport error;
used to instantiate dispatch-level statements that issue no calls. -/
def stubCat : Catalog where
  popular := .err "stub"
  searchMovie := fun _ => .err "stub"
  movieDetails := fun _ => .err "stub"
  searchPerson := fun _ => .err "stub"
  personCredits := fun _ => .err "stub"

/-- A catalog whose popular-movies endpoint returns one record with no
fields at all, exercising the missing-`title` path. -/
def missingTitleCatalog : Catalog :=
  { stubCat with popular := .ok (.obj [("results", .arr [.obj []])]) }

/-- Whether a key-annotated credit record lacks the `popularity`
field. -/
def missingPop (p : Json × Int) : Bool :=
  match p.1 with
  | .obj fs => (fs.lookup "popularity").isNone
  | _ => false

/-- Six well-formed popular-movie records, in catalog order. -/
def sixMovies : List Json :=
  [ .obj [("title", .str "A"), ("vote_average", .num 7)],
    .obj [("title", .str "B"), ("vote_average", .num 8)],
    .obj [("title", .str "C"), ("vote_average", .num 6)],
    .obj [("title", .str "D"), ("vote_average", .num 5)],
    .obj [("title", .str "E"), ("vote_average", .num 4)],
    .obj [("title", .str "F"), ("vote_average", .num 9)] ]

/-- A catalog serving `sixMovies` from the popular endpoint. -/
def sixMoviesCatalog : Catalog :=
  { stubCat with popular := .ok (.obj [("results", .arr sixMovies)]) }

/-- A catalog whose movie search returns two hits (ids 42 and 99) and
whose details endpoint serves a fixed record. -/
def twoHitsCatalog : Catalog :=
  { stubCat with
    searchMovie := fun _ => .ok (.obj [("results", .arr
      [.obj [("id", .num 42)], .obj [("id", .num 99)]])])
    movieDetails := fun _ => .ok (.obj
      [("title", .str "T"), ("overview", .str "O"),
       ("vote_average", .num 8), ("release_date", .str "2020-01-01")]) }

/-- Seven credit records: distinct popularities 3, 9, 7, 5, 1 plus a
duplicate 9 and one record with no popularity field. -/
def sevenCredits : List Json :=
  [ .obj [("title", .str "m1"), ("character", .str "c1"), ("popularity", .num 3)],
    .obj [("title", .str "m2"), ("character", .str "c2"), ("popularity", .num 9)],
    .obj [("title", .str "m3"), ("character", .str "c3")],
    .obj [("title", .str "m4"), ("character", .str "c4"), ("popularity", .num 9)],
    .obj [("title", .str "m5"), ("character", .str "c5"), ("popularity", .num 1)],
    .obj [("title", .str "m6"), ("character", .str "c6"), ("popularity", .num 5)],
    .obj [("title", .str "m7"), ("character", .str "c7"), ("popularity", .num 7)] ]

/-- A catalog whose person search finds id 7 and whose credits endpoint
serves `sevenCredits`. -/
def sevenCreditsCatalog : Catalog :=
  { stubCat with
    searchPerson := fun _ => .ok (.obj [("results", .arr [.obj [("id", .num 7)]])])
    personCredits := fun _ => .ok (.obj [("cast", .arr sevenCredits)]) }

/-- A catalog whose both search endpoints report zero matches. -/
def emptySearchCatalog : Catalog :=
  { stubCat with
    searchMovie := fun _ => .ok (.obj [("results", .arr [])])
    searchPerson := fun _ => .ok (.obj [("results", .arr [])]) }

/-- A catalog whose search endpoints succeed with one hit (id 42) but
whose second-step endpoints (details fetch, credits fetch) fail with a
transport error. -/
def secondCallErrCatalog : Catalog :=
  { stubCat with
    searchMovie := fun _ => .ok (.obj [("results", .arr [.obj [("id", .num 42)]])])
    movieDetails := fun _ => .err "boom"
    searchPerson := fun _ => .ok (.obj [("results", .arr [.obj [("id", .num 42)]])])
    personCredits := fun _ => .err "boom" }

/-- Four credit records, two of them without a popularity field. -/
def mixedCredits : List Json :=
  [ .obj [("popularity", .num 5)],
    .obj [],
    .obj [("popularity", .num 3)],
    .obj [("t", .str "x")] ]

/-- The key-annotated form of `mixedCredits`. -/
def mixedPairs : List (Json × Int) :=
  [ (.obj [("popularity", .num 5)], 5),
    (.obj [], 0),
    (.obj [("popularity", .num 3)], 3),
    (.obj [("t", .str "x")], 0) ]

/-- C1: counterexample — a classifier reply that decodes to a JSON array
(a syntactically valid, non-object top level) is passed through
`get_intent_from_llm` verbatim, and the field extraction in `main` then
raises `AttributeError` instead of yielding the fallback intent. -/
theorem intentPipeline_raises_on_array_reply :
    extractIntent (get_intent_from_llm (.reply (some (.arr [])))) =
      .error "AttributeError" := rfl

/-- C1 (amended): on a malformed, non-decodable classifier reply, or on
a failure of the classifier call itself, the intent pipeline yields
exactly the fallback intent — action `unsupported_request`, empty
parameters — and does not raise.  A decodable non-object top level, by
contrast, escapes as an exception. -/
theorem intentPipeline_fallback_on_decode_failure (r : ClassifierResult)
    (h : r = .callFailed ∨ r = .reply none) :
    extractIntent (get_intent_from_llm r) =
      .ok (.str "unsupported_request", .obj []) := by
  rcases h with h | h <;> subst h <;> rfl

/-- C1 (witness): the amended statement at the classifier-call-failure
input. -/
theorem intentPipeline_fallback_on_decode_failure_witness :
    extractIntent (get_intent_from_llm .callFailed) =
      .ok (.str "unsupported_request", .obj []) :=
  intentPipeline_fallback_on_decode_failure .callFailed (Or.inl rfl)

/-- C2: counterexample — a syntactically valid JSON object lacking the
`function_name` field yields an intent whose action is Python `None`
(`Json.null`), not a non-null string. -/
theorem intentAction_null_when_field_absent :
    extractIntent (get_intent_from_llm (.reply (some (.obj [])))) =
      .ok (Json.null, .obj [])
    ∧ ∀ s, Json.null ≠ Json.str s :=
  ⟨rfl, fun _ h => Json.noConfusion h⟩

/-- C2 (amended): a parser-accepted JSON object lacking `function_name`
yields action `None`; the turn still does not raise — dispatch falls to
the unknown-function branch and renders `No function called 'None'.`
with no catalog calls. -/
theorem intentAction_absent_field_renders_noFunction
    (cat : Catalog) (fs : List (String × Json))
    (h : fs.lookup "function_name" = none) :
    processTurn cat (.reply (some (.obj fs))) =
      (.ok "No function called \x27None\x27.", []) := by
  simp [processTurn, get_intent_from_llm, extractIntent, Json.dictGet, h,
        bind, Except.bind, pure, Except.pure, dispatch, Json.pyStr, Json.pyRepr]

/-- C2 (witness): the amended statement at the empty JSON object. -/
theorem intentAction_absent_field_renders_noFunction_witness :
    processTurn stubCat (.reply (some (.obj []))) =
      (.ok "No function called \x27None\x27.", []) :=
  intentAction_absent_field_renders_noFunction stubCat [] rfl

/-- C3: counterexample — the sentinel `unsupported_request` and an
unrecognized action `foo` are rendered with two different messages, not
one and the same "not supported" message. -/
theorem unsupported_vs_unknown_render_differently :
    (dispatch stubCat (.str "unsupported_request") (.obj [])).1 ≠
      (dispatch stubCat (.str "foo") (.obj [])).1 := by
  simp [dispatch, Json.pyStr]

/-- C3 (amended): an action outside the three registered workflow
identifiers dispatches to no workflow (no catalog calls), but the
rendering distinguishes the sentinel from other unrecognized strings:
`unsupported_request` yields the fixed "not supported" message, while
any other unrecognized action yields `No function called '<action>'.`. -/
theorem dispatch_unknown_action_messages (cat : Catalog) (ps : Json) :
    dispatch cat (.str "unsupported_request") ps =
      (.ok "This request is not supported. Please ask about popular movies, movie details, or actor credits.", [])
    ∧ ∀ s : String,
        s ∉ (["get_popular_movies", "get_movie_details", "get_actor_credits",
              "unsupported_request"] : List String) →
        dispatch cat (.str s) ps =
          (.ok ("No function called \x27" ++ s ++ "\x27."), []) := by
  constructor
  · rfl
  · intro s hs
    simp only [List.mem_cons, List.not_mem_nil, or_false, not_or] at hs
    obtain ⟨h1, h2, h3, h4⟩ := hs
    simp [dispatch, h1, h2, h3, h4, Json.pyStr]

/-- C3 (witness): the amended statement at the unrecognized action
`foo`. -/
theorem dispatch_unknown_action_messages_witness :
    dispatch stubCat (.str "unsupported_request") (.obj []) =
      (.ok "This request is not supported. Please ask about popular movies, movie details, or actor credits.", [])
    ∧ dispatch stubCat (.str "foo") (.obj []) =
      (.ok ("No function called \x27" ++ "foo" ++ "\x27."), []) :=
  ⟨(dispatch_unknown_action_messages stubCat (.obj [])).1,
   (dispatch_unknown_action_messages stubCat (.obj [])).2 "foo" (by decide)⟩

/-- C4: counterexample — a popular-movies response whose record lacks
`title` makes the workflow raise `KeyError` across its boundary instead
of returning a rendered string or typed failure. -/
theorem popularMovies_raises_on_missing_title :
    (handle_get_popular_movies missingTitleCatalog).1 =
      .error ("KeyError: \x27" ++ "title" ++ "\x27") := rfl

/-- C4 (amended): the workflows never throw on catalog transport
failures — a `RequestException` from any of their catalog calls, the
single popular call, either search call, or the second (details or
credits) call of the two-step workflows, is recovered into the rendered
`Error during API call:` string — but a catalog record missing an
expected field (`title`, `character`, `id`) raises an uncaught
`KeyError` across the workflow boundary. -/
theorem workflows_recover_transport_errors (cat : Catalog) (e : String)
    (q first mid : Json) (rest : List Json) :
    (cat.popular = .err e →
      (handle_get_popular_movies cat).1 = .ok ("Error during API call: " ++ e))
    ∧ (cat.searchMovie q = .err e →
      (handle_get_movie_details cat q).1 = .ok ("Error during API call: " ++ e))
    ∧ (cat.searchPerson q = .err e →
      (handle_get_actor_credits cat q).1 = .ok ("Error during API call: " ++ e))
    ∧ (cat.searchMovie q = .ok (.obj [("results", .arr (first :: rest))]) →
       first.getKey "id" = .ok mid →
       cat.movieDetails mid = .err e →
       handle_get_movie_details cat q =
         (.ok ("Error during API call: " ++ e),
          [.searchMovieCall q, .movieDetailsCall mid]))
    ∧ (cat.searchPerson q = .ok (.obj [("results", .arr (first :: rest))]) →
       first.getKey "id" = .ok mid →
       cat.personCredits mid = .err e →
       handle_get_actor_credits cat q =
         (.ok ("Error during API call: " ++ e),
          [.searchPersonCall q, .personCreditsCall mid])) := by
  refine ⟨fun h => ?_, fun h => ?_, fun h => ?_,
          fun h1 h2 h3 => ?_, fun h1 h2 h3 => ?_⟩
  · simp [handle_get_popular_movies, h]
  · simp [handle_get_movie_details, h]
  · simp [handle_get_actor_credits, h]
  · simp [handle_get_movie_details, Json.dictGet, Json.pyTruthy, Json.getIndex,
          h1, h2, h3]
  · simp [handle_get_actor_credits, Json.dictGet, Json.pyTruthy, Json.getIndex,
          h1, h2, h3]

/-- C4 (witness): the amended statement at the all-failing stub catalog
for the first-call cases, and at a catalog whose second-step endpoints
fail for the details- and credits-fetch cases. -/
theorem workflows_recover_transport_errors_witness :
    (handle_get_popular_movies stubCat).1 = .ok ("Error during API call: " ++ "stub")
    ∧ (handle_get_movie_details stubCat (.str "x")).1 =
        .ok ("Error during API call: " ++ "stub")
    ∧ (handle_get_actor_credits stubCat (.str "x")).1 =
        .ok ("Error during API call: " ++ "stub")
    ∧ handle_get_movie_details secondCallErrCatalog (.str "x") =
        (.ok ("Error during API call: " ++ "boom"),
         [.searchMovieCall (.str "x"), .movieDetailsCall (.num 42)])
    ∧ handle_get_actor_credits secondCallErrCatalog (.str "x") =
        (.ok ("Error during API call: " ++ "boom"),
         [.searchPersonCall (.str "x"), .personCreditsCall (.num 42)]) :=
  ⟨(workflows_recover_transport_errors stubCat "stub" (.str "x")
      (.obj []) Json.null []).1 rfl,
   (workflows_recover_transport_errors stubCat "stub" (.str "x")
      (.obj []) Json.null []).2.1 rfl,
   (workflows_recover_transport_errors stubCat "stub" (.str "x")
      (.obj []) Json.null []).2.2.1 rfl,
   (workflows_recover_transport_errors secondCallErrCatalog "boom" (.str "x")
      (.obj [("id", .num 42)]) (.num 42) []).2.2.2.1 rfl rfl rfl,
   (workflows_recover_transport_errors secondCallErrCatalog "boom" (.str "x")
      (.obj [("id", .num 42)]) (.num 42) []).2.2.2.2 rfl rfl rfl⟩

/-- C5: an intent naming a two-step workflow whose required parameter is
absent from the parameter mapping dispatches to the missing-parameter
message without invoking the workflow — the catalog call list is
empty. -/
theorem dispatch_missing_parameter_no_calls (cat : Catalog) (fs : List (String × Json)) :
    (fs.lookup "movie_name" = none →
      dispatch cat (.str "get_movie_details") (.obj fs) =
        (.ok "LLM could not extract the movie name.", []))
    ∧ (fs.lookup "actor_name" = none →
      dispatch cat (.str "get_actor_credits") (.obj fs) =
        (.ok "LLM could not extract the actor name.", [])) := by
  constructor <;> intro h <;> simp [dispatch, Json.pyContains, h]

/-- C5 (witness): the statement at empty parameters. -/
theorem dispatch_missing_parameter_no_calls_witness :
    dispatch stubCat (.str "get_movie_details") (.obj []) =
      (.ok "LLM could not extract the movie name.", [])
    ∧ dispatch stubCat (.str "get_actor_credits") (.obj []) =
      (.ok "LLM could not extract the actor name.", []) :=
  ⟨(dispatch_missing_parameter_no_calls stubCat []).1 rfl,
   (dispatch_missing_parameter_no_calls stubCat []).2 rfl⟩

/-- A successful comprehension produces one line per element. -/
theorem comprehend_length {f : Json → Except String String} :
    ∀ {ms : List Json} {ls : List String},
      comprehend f ms = .ok ls → ls.length = ms.length := by
  intro ms
  induction ms with
  | nil =>
    intro ls h
    simp only [comprehend] at h
    injection h with h
    subst h
    rfl
  | cons m ms ih =>
    intro ls h
    cases hm : f m with
    | error e => simp [comprehend, hm, bind, Except.bind] at h
    | ok l =>
      cases hms : comprehend f ms with
      | error e => simp [comprehend, hm, hms, bind, Except.bind] at h
      | ok tail =>
        simp only [comprehend, hm, hms, bind, Except.bind, pure, Except.pure] at h
        injection h with h
        subst h
        simp [ih hms]

/-- A successful comprehension is elementwise: the `i`-th line is the
rendering of the `i`-th element. -/
theorem comprehend_get {f : Json → Except String String} :
    ∀ {ms : List Json} {ls : List String}, comprehend f ms = .ok ls →
      ∀ i (hi : i < ms.length) (hi' : i < ls.length),
        f (ms.get ⟨i, hi⟩) = .ok (ls.get ⟨i, hi'⟩) := by
  intro ms
  induction ms with
  | nil => intro ls h i hi; exact absurd hi (by simp)
  | cons m ms ih =>
    intro ls h i hi hi'
    cases hm : f m with
    | error e => simp [comprehend, hm, bind, Except.bind] at h
    | ok l =>
      cases hms : comprehend f ms with
      | error e => simp [comprehend, hm, hms, bind, Except.bind] at h
      | ok tail =>
        simp only [comprehend, hm, hms, bind, Except.bind, pure, Except.pure] at h
        injection h with h
        subst h
        cases i with
        | zero => simpa using hm
        | succ n =>
          exact ih hms n (by simpa using hi) (by simpa using hi')

/-- A successful key extraction annotates each record, in order, with
its own key. -/
theorem creditKeys_ok :
    ∀ {xs : List Json} {pairs : List (Json × Int)}, creditKeys xs = .ok pairs →
      pairs.map Prod.fst = xs ∧ ∀ p ∈ pairs, creditKey p.1 = .ok p.2 := by
  intro xs
  induction xs with
  | nil =>
    intro pairs h
    simp only [creditKeys] at h
    injection h with h
    subst h
    simp
  | cons x xs ih =>
    intro pairs h
    cases hk : creditKey x with
    | error e => simp [creditKeys, hk, bind, Except.bind] at h
    | ok k =>
      cases hks : creditKeys xs with
      | error e => simp [creditKeys, hk, hks, bind, Except.bind] at h
      | ok rest =>
        simp only [creditKeys, hk, hks, bind, Except.bind, pure, Except.pure] at h
        injection h with h
        subst h
        obtain ⟨h1, h2⟩ := ih hks
        refine ⟨by simp [h1], ?_⟩
        intro p hp
        rcases List.mem_cons.mp hp with rfl | hp
        · exact hk
        · exact h2 p hp

/-- The sorted credits are a permutation of the key-annotated input. -/
theorem sortCredits_perm (pairs : List (Json × Int)) :
    List.Perm (sortCredits pairs) pairs :=
  List.perm_insertionSort _ pairs

/-- The sorted credits are pairwise descending in key. -/
theorem sortCredits_sorted (pairs : List (Json × Int)) :
    (sortCredits pairs).Pairwise fun a b => b.2 ≤ a.2 := by
  haveI : IsTotal (Json × Int) fun a b => b.2 ≤ a.2 := ⟨fun a b => le_total b.2 a.2⟩
  haveI : IsTrans (Json × Int) fun a b => b.2 ≤ a.2 :=
    ⟨fun _ _ _ h1 h2 => le_trans h2 h1⟩
  exact List.sorted_insertionSort _ pairs

/-- Stability of the credit sort: filtering by any predicate that only
selects records of one common key yields the same subsequence, in the
same order, before and after sorting. -/
theorem sortCredits_filter_eq (pairs : List (Json × Int)) (p : Json × Int → Bool)
    (hp : ∀ a ∈ pairs, ∀ b ∈ pairs, p a = true → p b = true → a.2 = b.2) :
    (sortCredits pairs).filter p = pairs.filter p := by
  have hpw : (pairs.filter p).Pairwise fun a b => b.2 ≤ a.2 := by
    apply List.pairwise_of_forall_mem_list
    intro a ha b hb
    have hpa := List.of_mem_filter ha
    have hpb := List.of_mem_filter hb
    have hma := List.mem_of_mem_filter ha
    have hmb := List.mem_of_mem_filter hb
    exact le_of_eq (hp a hma b hmb hpa hpb).symm
  have hsub : List.Sublist (pairs.filter p) (sortCredits pairs) :=
    List.sublist_insertionSort hpw (List.filter_sublist pairs)
  have h1 : List.Sublist (pairs.filter p) ((sortCredits pairs).filter p) := by
    have h := hsub.filter p
    simpa using h
  have h2 : List.Perm ((sortCredits pairs).filter p) (pairs.filter p) :=
    (sortCredits_perm pairs).filter p
  exact (h1.eq_of_length h2.length_eq.symm).symm

/-- C6: with the popular endpoint listing `movies`, the workflow renders
exactly the first five entries (all of them when fewer than five) in the
order returned by the catalog, with no re-sorting and no other
modification: the rendered block is one `- title (Rating: X)` line per
taken entry, and the `i`-th line is the line-rendering of the `i`-th
catalog entry. -/
theorem popularMovies_first_five_in_order (cat : Catalog) (movies : List Json)
    (lines : List String)
    (hcat : cat.popular = .ok (.obj [("results", .arr movies)]))
    (hl : popularLines (movies.take 5) = .ok lines) :
    (handle_get_popular_movies cat).1 =
      .ok ("The top 5 popular movies now:\n" ++ String.intercalate "\n" lines)
    ∧ lines.length = min 5 movies.length
    ∧ ∀ i (hi : i < movies.length) (hi' : i < lines.length),
        popularLine (movies.get ⟨i, hi⟩) = .ok (lines.get ⟨i, hi'⟩) := by
  have hlen : lines.length = min 5 movies.length := by
    have h := comprehend_length hl
    simpa using h
  refine ⟨?_, hlen, ?_⟩
  · simp [handle_get_popular_movies, hcat, Json.dictGet, Json.slice5, hl]
  · intro i hi hi'
    have hi2 : i < (movies.take 5).length := by
      simpa using lt_of_lt_of_le hi' (le_of_eq hlen)
    have h := comprehend_get hl i hi2 hi'
    simpa using h

/-- C6 (witness): six catalog records render as the first five, in
order. -/
theorem popularMovies_first_five_in_order_witness :
    (handle_get_popular_movies sixMoviesCatalog).1 =
      .ok ("The top 5 popular movies now:\n" ++ String.intercalate "\n"
        ["- A (Rating: 7)", "- B (Rating: 8)", "- C (Rating: 6)",
         "- D (Rating: 5)", "- E (Rating: 4)"]) :=
  (popularMovies_first_five_in_order sixMoviesCatalog sixMovies _ rfl rfl).1

/-- C7: with a non-empty movie-search result list, the details workflow
issues its second call with the identifier of the FIRST search result
(no local re-ranking) — the call log records exactly the search call
followed by the details call with that identifier — and renders the
fetched title, overview, vote average with the fixed `/10` suffix, and
release date. -/
theorem movieDetails_uses_first_result (cat : Catalog)
    (q first mid details t o v rd : Json) (rest : List Json)
    (hs : cat.searchMovie q = .ok (.obj [("results", .arr (first :: rest))]))
    (hid : first.getKey "id" = .ok mid)
    (hd : cat.movieDetails mid = .ok details)
    (ht : details.getKey "title" = .ok t)
    (ho : details.getKey "overview" = .ok o)
    (hv : details.getKey "vote_average" = .ok v)
    (hrd : details.getKey "release_date" = .ok rd) :
    handle_get_movie_details cat q =
      (.ok ("Details of \x27" ++ t.pyStr ++ "\x27 movie:\nOverview: " ++ o.pyStr ++
            "\nVote average: " ++ v.pyStr ++ "/10\nRelease date: " ++ rd.pyStr),
       [.searchMovieCall q, .movieDetailsCall mid]) := by
  simp [handle_get_movie_details, hs, Json.dictGet, Json.pyTruthy, Json.getIndex,
        hid, hd, renderDetails, ht, ho, hv, hrd, bind, Except.bind, pure, Except.pure]

/-- C7 (witness): a search returning ids 42 then 99 fetches details for
42 and renders them. -/
theorem movieDetails_uses_first_result_witness :
    handle_get_movie_details twoHitsCatalog (.str "T") =
      (.ok ("Details of \x27" ++ "T" ++ "\x27 movie:\nOverview: " ++ "O" ++
            "\nVote average: " ++ Json.pyStr (.num 8) ++
            "/10\nRelease date: " ++ "2020-01-01"),
       [.searchMovieCall (.str "T"), .movieDetailsCall (.num 42)]) :=
  movieDetails_uses_first_result twoHitsCatalog (.str "T")
    (.obj [("id", .num 42)]) (.num 42)
    (.obj [("title", .str "T"), ("overview", .str "O"),
           ("vote_average", .num 8), ("release_date", .str "2020-01-01")])
    (.str "T") (.str "O") (.num 8) (.str "2020-01-01")
    [.obj [("id", .num 99)]] rfl rfl rfl rfl rfl rfl rfl

/-- C8: the credits workflow sorts the key-annotated records into a
permutation that is pairwise descending in popularity and stable — the
records of any one popularity value keep their original relative
order — and renders exactly the first five sorted records (all when
fewer than five) as `- title (Character: role)` lines, elementwise in
order. -/
theorem actorCredits_top_five_stable_desc (cat : Catalog)
    (q pid first : Json) (rest : List Json) (credits : List Json)
    (pairs : List (Json × Int)) (lines : List String)
    (hs : cat.searchPerson q = .ok (.obj [("results", .arr (first :: rest))]))
    (hid : first.getKey "id" = .ok pid)
    (hc : cat.personCredits pid = .ok (.obj [("cast", .arr credits)]))
    (hk : creditKeys credits = .ok pairs)
    (hl : creditLines (((sortCredits pairs).take 5).map Prod.fst) = .ok lines) :
    handle_get_actor_credits cat q =
      (.ok ("\x27" ++ q.pyStr ++ "\x27 (ID: " ++ pid.pyStr ++ ")\x27s top movies:\n"
            ++ String.intercalate "\n" lines),
       [.searchPersonCall q, .personCreditsCall pid])
    ∧ List.Perm (sortCredits pairs) pairs
    ∧ (sortCredits pairs).Pairwise (fun a b => b.2 ≤ a.2)
    ∧ (∀ k : Int, (sortCredits pairs).filter (fun x => x.2 == k) =
        pairs.filter (fun x => x.2 == k))
    ∧ lines.length = min 5 pairs.length
    ∧ ∀ i (hi : i < (sortCredits pairs).length) (hi' : i < lines.length),
        creditLine ((sortCredits pairs).get ⟨i, hi⟩).1 = .ok (lines.get ⟨i, hi'⟩) := by
  have hlen := comprehend_length hl
  have hplen : (sortCredits pairs).length = pairs.length :=
    (sortCredits_perm pairs).length_eq
  refine ⟨?_, sortCredits_perm pairs, sortCredits_sorted pairs, ?_, ?_, ?_⟩
  · have hl' := hl
    rw [List.map_take] at hl'
    simp [handle_get_actor_credits, hs, Json.dictGet, Json.pyTruthy, Json.getIndex,
          hid, hc, Json.iterElems, hk, hl']
  · intro k
    refine sortCredits_filter_eq pairs _ (fun a _ b _ ha hb => ?_)
    have h1 : a.2 = k := by simpa using ha
    have h2 : b.2 = k := by simpa using hb
    rw [h1, h2]
  · simpa [hplen] using hlen
  · intro i hi hi'
    have hi2 : i < (((sortCredits pairs).take 5).map Prod.fst).length := by
      rw [← hlen]; exact hi'
    have h := comprehend_get hl i hi2 hi'
    simpa using h

/-- C8 (witness): seven credit records with popularities 3, 9, none, 9,
1, 5, 7 render as the top five in descending order, the two
popularity-9 records keeping their original relative order. -/
theorem actorCredits_top_five_stable_desc_witness :
    handle_get_actor_credits sevenCreditsCatalog (.str "Actor") =
      (.ok ("\x27Actor\x27 (ID: 7)\x27s top movies:\n- m2 (Character: c2)\n- m4 (Character: c4)\n- m7 (Character: c7)\n- m6 (Character: c6)\n- m1 (Character: c1)"),
       [.searchPersonCall (.str "Actor"), .personCreditsCall (.num 7)]) :=
  (actorCredits_top_five_stable_desc sevenCreditsCatalog (.str "Actor") (.num 7)
    (.obj [("id", .num 7)]) [] sevenCredits _ _ rfl rfl rfl rfl rfl).1

/-- C9: a search step reporting zero results makes each two-step
workflow return the not-found message carrying the query, with exactly
one catalog call issued — no details fetch for `MovieDetails`, no
credit fetch for `ActorCredits`. -/
theorem twoStep_zero_results_no_second_call (cat : Catalog) (q : Json)
    (hm : cat.searchMovie q = .ok (.obj [("results", .arr [])]))
    (hp : cat.searchPerson q = .ok (.obj [("results", .arr [])])) :
    handle_get_movie_details cat q =
      (.ok ("No movie titled \x27" ++ q.pyStr ++ "\x27."), [.searchMovieCall q])
    ∧ handle_get_actor_credits cat q =
      (.ok ("No actor named \x27" ++ q.pyStr ++ "\x27."), [.searchPersonCall q]) := by
  constructor <;>
    simp [handle_get_movie_details, handle_get_actor_credits, hm, hp,
          Json.dictGet, Json.pyTruthy]

/-- C9 (witness): the statement at a catalog with empty search
results. -/
theorem twoStep_zero_results_no_second_call_witness :
    handle_get_movie_details emptySearchCatalog (.str "Zzzznonexistent") =
      (.ok ("No movie titled \x27" ++ "Zzzznonexistent" ++ "\x27."),
       [.searchMovieCall (.str "Zzzznonexistent")])
    ∧ handle_get_actor_credits emptySearchCatalog (.str "Zzzznonexistent") =
      (.ok ("No actor named \x27" ++ "Zzzznonexistent" ++ "\x27."),
       [.searchPersonCall (.str "Zzzznonexistent")]) :=
  twoStep_zero_results_no_second_call emptySearchCatalog (.str "Zzzznonexistent") rfl rfl

/-- C10: a credit record lacking the `popularity` field is keyed as 0,
so in the sorted output no record following a missing-popularity record
has positive popularity (every positive-popularity record ranks above
it), and the missing-popularity records keep the catalog's original
relative order among themselves. -/
theorem actorCredits_missing_popularity_ranks_as_zero (credits : List Json)
    (pairs : List (Json × Int)) (hk : creditKeys credits = .ok pairs) :
    (∀ p ∈ pairs, missingPop p = true → p.2 = 0)
    ∧ (sortCredits pairs).filter missingPop = pairs.filter missingPop
    ∧ ∀ i j (hi : i < (sortCredits pairs).length)
        (hj : j < (sortCredits pairs).length), i ≤ j →
        missingPop ((sortCredits pairs).get ⟨i, hi⟩) = true →
        ((sortCredits pairs).get ⟨j, hj⟩).2 ≤ 0 := by
  obtain ⟨-, hkeys⟩ := creditKeys_ok hk
  have hzero : ∀ p ∈ pairs, missingPop p = true → p.2 = 0 := by
    rintro ⟨x, k⟩ hp hmp
    have hck := hkeys _ hp
    cases x with
    | obj fs =>
      simp only [missingPop, Option.isNone_iff_eq_none] at hmp
      simp only [creditKey, hmp, Option.getD_none] at hck
      injection hck with hck
      exact hck.symm
    | null => simp [missingPop] at hmp
    | bool b => simp [missingPop] at hmp
    | num n => simp [missingPop] at hmp
    | str s => simp [missingPop] at hmp
    | arr xs => simp [missingPop] at hmp
  refine ⟨hzero, ?_, ?_⟩
  · exact sortCredits_filter_eq pairs missingPop
      (fun a ha b hb hpa hpb => by rw [hzero a ha hpa, hzero b hb hpb])
  · intro i j hi hj hij hmi
    have hmem : (sortCredits pairs).get ⟨i, hi⟩ ∈ pairs :=
      (sortCredits_perm pairs).mem_iff.mp (List.get_mem _ _ _)
    have hzi : ((sortCredits pairs).get ⟨i, hi⟩).2 = 0 := hzero _ hmem hmi
    rcases Nat.lt_or_ge i j with hlt | hge
    · have hrel := List.pairwise_iff_get.mp (sortCredits_sorted pairs)
        ⟨i, hi⟩ ⟨j, hj⟩ hlt
      rw [hzi] at hrel
      exact hrel
    · have hij' : i = j := le_antisymm hij hge
      subst hij'
      rw [hzi]

/-- C10 (witness): among four records with popularities 5, none, 3,
none, the two missing-popularity records keep their original relative
order through the sort. -/
theorem actorCredits_missing_popularity_ranks_as_zero_witness :
    (sortCredits mixedPairs).filter missingPop = mixedPairs.filter missingPop :=
  (actorCredits_missing_popularity_ranks_as_zero mixedCredits mixedPairs rfl).2.1
